import Mathlib

/-!
Verification development for the `uciengine` crate (src/analysis.rs and
src/uciengine.rs): a shallow embedding of the bounded text buffers, the
info-line parser, the serialization adapter and the engine driver's pure
command rendering / bestmove extraction, together with theorems settling
the specification claims.

Text is modelled at the same two levels as the Rust code: `List Char` for
the character view (`str::chars`) and `List Nat` for the UTF-8 byte view
(`str::as_bytes`). Machine integers (`usize`, `u64`, `i32`) are modelled
as `Nat`/`Int` with the explicit range checks that `str::parse` performs.
-/

/-- UTF-8 encoding of one character, as the list of its bytes
(models Rust's byte view of a `char` inside a `str`). -/
def utf8Bytes (c : Char) : List Nat :=
  let n := c.toNat
  if n < 0x80 then [n]
  else if n < 0x800 then
    [0xC0 + n / 0x40, 0x80 + n % 0x40]
  else if n < 0x10000 then
    [0xE0 + n / 0x1000, 0x80 + (n / 0x40) % 0x40, 0x80 + n % 0x40]
  else
    [0xF0 + n / 0x40000, 0x80 + (n / 0x1000) % 0x40, 0x80 + (n / 0x40) % 0x40, 0x80 + n % 0x40]

/-- UTF-8 bytes of a character list (models `str::as_bytes`). -/
def listBytes (cs : List Char) : List Nat :=
  (cs.map utf8Bytes).flatten

/-- maximum length of uci move (`UCI_MAX_LENGTH` in src/analysis.rs) -/
def UCI_MAX_LENGTH : Nat := 5

/-- typical length of uci move (`UCI_TYPICAL_LENGTH` in src/analysis.rs) -/
def UCI_TYPICAL_LENGTH : Nat := 4

/-- maximum number of pv moves to store (`MAX_PV_MOVES`, non-test value) -/
def MAX_PV_MOVES : Nat := 10

/-- pv buffer size (`PV_BUFF_SIZE = MAX_PV_MOVES * (UCI_TYPICAL_LENGTH + 1)`) -/
def PV_BUFF_SIZE : Nat := MAX_PV_MOVES * (UCI_TYPICAL_LENGTH + 1)

/-- Bounded text cell generated by `gen_str_buff!`: a length plus byte
storage. The capacity is passed to each operation (the macro fixes it at
the type level; `UciBuff` uses `UCI_MAX_LENGTH`, `PvBuff` uses
`PV_BUFF_SIZE`). The intended invariant `len ≤ N` and
`buff.length = N` is stated separately, not enforced by the type, so
that the code's actual behaviour on every input can be expressed. -/
structure Buff where
  len : Nat
  buff : List Nat
deriving DecidableEq, Repr

/-- `new()`: empty cell, zero-filled storage of the capacity's size. -/
def Buff.new (N : Nat) : Buff :=
  ⟨0, List.replicate N 0⟩

/-- `to_opt()`: `none` when empty, otherwise the stored bytes. -/
def Buff.to_opt (b : Buff) : Option (List Nat) :=
  if b.len = 0 then none else some (b.buff.take b.len)

/-- `set(value)`: copy up to `N` bytes of the input over the front of the
storage, silently dropping the remainder; bytes past the new length keep
their previous (stale) values, as in the Rust array. -/
def Buff.set (b : Buff) (N : Nat) (value : List Char) : Buff :=
  let bytes := listBytes value
  let len := min bytes.length N
  ⟨len, bytes.take len ++ b.buff.drop len⟩

/-- `reset()`: length zero, storage untouched. -/
def Buff.reset (b : Buff) : Buff :=
  ⟨0, b.buff⟩

/-- The reverse scan inside `set_trim`: Rust iterates the characters in
reverse under `take_while`, decrementing the byte count `total_len` once
per visited character, and continues while the character differs from the
separator or the decremented count still exceeds the capacity. The final
value of `total_len` (also decremented by the failing evaluation) is
returned. -/
def trimScan (N : Nat) (sep : Char) : List Char → Nat → Nat
  | [], t => t
  | c :: rest, t =>
      if c ≠ sep ∨ t - 1 > N then trimScan N sep rest (t - 1) else t - 1

/-- `set_trim(value, trim)`: run the reverse scan to compute the retained
byte count, then copy that prefix of the input's bytes into the storage.
(When the computed count exceeds the capacity the Rust slice copy
`self.buff[0..total_len]` panics; the model simply records the
out-of-range length.) -/
def Buff.set_trim (b : Buff) (N : Nat) (value : List Char) (trim : Char) : Buff :=
  let bytes := listBytes value
  let tl := trimScan N trim value.reverse bytes.length
  ⟨tl, bytes.take tl ++ b.buff.drop tl⟩

/-- `From<&str>`: a fresh cell (zero-filled storage) holding up to `N`
bytes of the input. -/
def Buff.of_chars (N : Nat) (value : List Char) : Buff :=
  let bytes := listBytes value
  let len := min bytes.length N
  ⟨len, bytes.take len ++ List.replicate (N - len) 0⟩

/-- `From<Option<String>>`: `unwrap_or` the empty string, then convert;
stated directly on the byte content. -/
def Buff.of_opt (N : Nat) (o : Option (List Nat)) : Buff :=
  let bytes := o.getD []
  let len := min bytes.length N
  ⟨len, bytes.take len ++ List.replicate (N - len) 0⟩

/-- Intended well-formedness of a cell of capacity `N`. -/
def Buff.wf (b : Buff) (N : Nat) : Prop :=
  b.len ≤ N ∧ b.buff.length = N

instance (b : Buff) (N : Nat) : Decidable (b.wf N) := by
  unfold Buff.wf; infer_instance

/-- `Score`: centipawns or mate distance (`i32` payload). -/
inductive Score where
  | Cp (value : Int)
  | Mate (value : Int)
deriving DecidableEq, Repr

/-- `ScoreType`: exact, lowerbound or upperbound. -/
inductive ScoreType where
  | Exact
  | Lowerbound
  | Upperbound
deriving DecidableEq, Repr

/-- Win/draw/loss counters (`u64` fields). -/
structure WDL where
  win : Nat
  draw : Nat
  loss : Nat
deriving DecidableEq, Repr

/-- `ParsingState` of the info-line parser. -/
inductive ParsingState where
  | Info
  | Key
  | Unknown
  | Depth
  | Seldepth
  | Time
  | Nodes
  | Multipv
  | Score
  | WdlW
  | WdlD
  | WdlL
  | ScoreCp
  | ScoreMate
  | Currmove
  | Currmovenumber
  | Hashfull
  | Nps
  | Tbhits
  | Cpuload
  | PvBestmove
  | PvPonder
  | PvRest
deriving DecidableEq, Repr

/-- `InfoParseError`: the three parse failure kinds. -/
inductive InfoParseError where
  | ParseNumberError (ps : ParsingState) (value : List Char)
  | InvalidKeyError (token : List Char)
  | InvalidScoreSpecifier (token : List Char)
deriving DecidableEq, Repr

/-- `AnalysisInfo`: the mutable accumulator of one analysis snapshot. -/
structure AnalysisInfo where
  done : Bool
  bestmove : Buff
  ponder : Buff
  pv : Buff
  depth : Nat
  seldepth : Nat
  time : Nat
  nodes : Nat
  multipv : Nat
  score : Score
  currmove : Buff
  currmovenumber : Nat
  hashfull : Nat
  nps : Nat
  tbhits : Nat
  cpuload : Nat
  scoretype : ScoreType
  wdl : WDL
deriving DecidableEq, Repr

/-- `AnalysisInfo::new()`. -/
def AnalysisInfo.new : AnalysisInfo where
  done := false
  bestmove := Buff.new UCI_MAX_LENGTH
  ponder := Buff.new UCI_MAX_LENGTH
  pv := Buff.new PV_BUFF_SIZE
  depth := 0
  seldepth := 0
  time := 0
  nodes := 0
  multipv := 0
  score := .Cp 0
  currmove := Buff.new UCI_MAX_LENGTH
  currmovenumber := 0
  hashfull := 0
  nps := 0
  tbhits := 0
  cpuload := 0
  scoretype := .Exact
  wdl := ⟨0, 0, 0⟩

/-- Value of a nonempty all-digit character list, `none` otherwise. -/
def digitsVal (cs : List Char) : Option Nat :=
  if cs ≠ [] ∧ cs.all (fun c => c.isDigit) then
    some (cs.foldl (fun a c => a * 10 + (c.toNat - 48)) 0)
  else none

/-- largest `usize`/`u64` value (the crate targets 64-bit platforms) -/
def U64_MAX : Nat := 2 ^ 64 - 1

/-- `str::parse` for an unsigned integer type with maximum `bound`:
an optional leading plus sign, then at least one digit, no overflow. -/
def parseUnsigned (bound : Nat) (tok : List Char) : Option Nat :=
  let ds := match tok with
    | '+' :: rest => rest
    | _ => tok
  match digitsVal ds with
  | some n => if n ≤ bound then some n else none
  | none => none

/-- `str::parse::<i32>()`: optional sign, digits, 32-bit range check. -/
def parseI32 (tok : List Char) : Option Int :=
  match tok with
  | '-' :: rest =>
    match digitsVal rest with
    | some n => if n ≤ 2 ^ 31 then some (-(n : Int)) else none
    | none => none
  | '+' :: rest =>
    match digitsVal rest with
    | some n => if n ≤ 2 ^ 31 - 1 then some (n : Int) else none
    | none => none
  | _ =>
    match digitsVal tok with
    | some n => if n ≤ 2 ^ 31 - 1 then some (n : Int) else none
    | none => none

/-- Helper for `splitTokens`: accumulates the current token (reversed). -/
def splitAcc : List Char → List Char → List (List Char)
  | [], acc => [acc.reverse]
  | c :: rest, acc =>
      if c = ' ' then acc.reverse :: splitAcc rest [] else splitAcc rest (c :: acc)

/-- Rust's `str::split(" ")`: split on every single space, keeping empty
pieces (the empty input yields one empty token). -/
def splitTokens (cs : List Char) : List (List Char) :=
  splitAcc cs []

/-- Result of dispatching one token: continue with updated loop state, or
one of the two early returns (`Ok(())` / `Err(..)`). Early returns carry
the record as mutated so far (Rust mutates `&mut self` in place). -/
inductive StepRes where
  | next (ps : ParsingState) (pvBuff : List Char) (pvOn : Bool) (ai : AnalysisInfo)
  | stopOk (ai : AnalysisInfo)
  | stopErr (e : InfoParseError) (ai : AnalysisInfo)
deriving DecidableEq, Repr

/-- The single field assignments performed by the parser's dispatch arms
(`self.<field> = v` in src/analysis.rs), as named update functions; kept
abbreviated so that proof goals about the dispatch step stay compact. -/
def AnalysisInfo.withScoretype (ai : AnalysisInfo) (v : ScoreType) : AnalysisInfo :=
  { ai with scoretype := v }

/-- `self.depth = v` -/
def AnalysisInfo.withDepth (ai : AnalysisInfo) (v : Nat) : AnalysisInfo :=
  { ai with depth := v }

/-- `self.seldepth = v` -/
def AnalysisInfo.withSeldepth (ai : AnalysisInfo) (v : Nat) : AnalysisInfo :=
  { ai with seldepth := v }

/-- `self.time = v` -/
def AnalysisInfo.withTime (ai : AnalysisInfo) (v : Nat) : AnalysisInfo :=
  { ai with time := v }

/-- `self.nodes = v` -/
def AnalysisInfo.withNodes (ai : AnalysisInfo) (v : Nat) : AnalysisInfo :=
  { ai with nodes := v }

/-- `self.multipv = v` -/
def AnalysisInfo.withMultipv (ai : AnalysisInfo) (v : Nat) : AnalysisInfo :=
  { ai with multipv := v }

/-- `self.wdl.win = v` -/
def AnalysisInfo.withWdlWin (ai : AnalysisInfo) (v : Nat) : AnalysisInfo :=
  { ai with wdl := { ai.wdl with win := v } }

/-- `self.wdl.draw = v` -/
def AnalysisInfo.withWdlDraw (ai : AnalysisInfo) (v : Nat) : AnalysisInfo :=
  { ai with wdl := { ai.wdl with draw := v } }

/-- `self.wdl.loss = v` -/
def AnalysisInfo.withWdlLoss (ai : AnalysisInfo) (v : Nat) : AnalysisInfo :=
  { ai with wdl := { ai.wdl with loss := v } }

/-- `self.score = v` -/
def AnalysisInfo.withScore (ai : AnalysisInfo) (v : Score) : AnalysisInfo :=
  { ai with score := v }

/-- `self.currmove.set(token)` -/
def AnalysisInfo.withCurrmove (ai : AnalysisInfo) (token : List Char) : AnalysisInfo :=
  { ai with currmove := ai.currmove.set UCI_MAX_LENGTH token }

/-- `self.currmovenumber = v` -/
def AnalysisInfo.withCurrmovenumber (ai : AnalysisInfo) (v : Nat) : AnalysisInfo :=
  { ai with currmovenumber := v }

/-- `self.hashfull = v` -/
def AnalysisInfo.withHashfull (ai : AnalysisInfo) (v : Nat) : AnalysisInfo :=
  { ai with hashfull := v }

/-- `self.nps = v` -/
def AnalysisInfo.withNps (ai : AnalysisInfo) (v : Nat) : AnalysisInfo :=
  { ai with nps := v }

/-- `self.tbhits = v` -/
def AnalysisInfo.withTbhits (ai : AnalysisInfo) (v : Nat) : AnalysisInfo :=
  { ai with tbhits := v }

/-- `self.cpuload = v` -/
def AnalysisInfo.withCpuload (ai : AnalysisInfo) (v : Nat) : AnalysisInfo :=
  { ai with cpuload := v }

/-- The `PvBestmove` arm's record mutation: `self.bestmove =
UciBuff::from(token); self.ponder.reset()`. -/
def AnalysisInfo.withPvBestmove (ai : AnalysisInfo) (token : List Char) : AnalysisInfo :=
  { ai with bestmove := Buff.of_chars UCI_MAX_LENGTH token, ponder := ai.ponder.reset }

/-- The `PvPonder` arm's record mutation: `self.ponder = UciBuff::from(token)`. -/
def AnalysisInfo.withPonder (ai : AnalysisInfo) (token : List Char) : AnalysisInfo :=
  { ai with ponder := Buff.of_chars UCI_MAX_LENGTH token }

/-- The end-of-line commit `self.pv.set_trim(pv_buff, ' ')`. -/
def AnalysisInfo.withPvCommit (ai : AnalysisInfo) (pvBuff : List Char) : AnalysisInfo :=
  { ai with pv := ai.pv.set_trim PV_BUFF_SIZE pvBuff ' ' }

/-- One iteration of the token dispatch loop in `AnalysisInfo::parse`,
transcribed arm by arm. In the catch-all value-state arms the Rust code
ends with `if (!pv_on) && (!keep_state) { ps = Key }`; each arm below
inlines that post-step with its own `keep_state` value. The Key arm's
trailing `if let ParsingState::Score = ps { self.scoretype = Exact }` is
inlined into the `"score"` branch, the only branch that yields `Score`. -/
def parseStep (allow : Bool) (ps : ParsingState) (pvBuff : List Char) (pvOn : Bool)
    (ai : AnalysisInfo) (token : List Char) : StepRes :=
  match ps with
  | .Info =>
    if token = "info".data then .next .Key pvBuff pvOn ai
    else .stopOk ai
  | .Key =>
    if token = "string".data ∨ token = "refutation".data ∨ token = "currline".data then
      .stopOk ai
    else if token = "lowerbound".data then
      .next .Key pvBuff pvOn (ai.withScoretype .Lowerbound)
    else if token = "upperbound".data then
      .next .Key pvBuff pvOn (ai.withScoretype .Upperbound)
    else if token = "depth".data then .next .Depth pvBuff pvOn ai
    else if token = "seldepth".data then .next .Seldepth pvBuff pvOn ai
    else if token = "time".data then .next .Time pvBuff pvOn ai
    else if token = "nodes".data then .next .Nodes pvBuff pvOn ai
    else if token = "multipv".data then .next .Multipv pvBuff pvOn ai
    else if token = "score".data then
      .next .Score pvBuff pvOn (ai.withScoretype .Exact)
    else if token = "wdl".data then .next .WdlW pvBuff pvOn ai
    else if token = "currmove".data then .next .Currmove pvBuff pvOn ai
    else if token = "currmovenumber".data then .next .Currmovenumber pvBuff pvOn ai
    else if token = "hashfull".data then .next .Hashfull pvBuff pvOn ai
    else if token = "nps".data then .next .Nps pvBuff pvOn ai
    else if token = "tbhits".data then .next .Tbhits pvBuff pvOn ai
    else if token = "cpuload".data then .next .Cpuload pvBuff pvOn ai
    else if token = "pv".data then .next .PvBestmove pvBuff pvOn ai
    else if allow then .next .Unknown pvBuff pvOn ai
    else .stopErr (.InvalidKeyError token) ai
  | .Score =>
    if token = "cp".data then .next .ScoreCp pvBuff pvOn ai
    else if token = "mate".data then .next .ScoreMate pvBuff pvOn ai
    else if token = "upperbound".data then
      .next .Score pvBuff pvOn (ai.withScoretype .Upperbound)
    else if token = "lowerbound".data then
      .next .Score pvBuff pvOn (ai.withScoretype .Lowerbound)
    else .stopErr (.InvalidScoreSpecifier token) ai
  | .Unknown =>
    .next .Key pvBuff pvOn ai
  | .Depth =>
    match parseUnsigned U64_MAX token with
    | some n => .next (if pvOn then .Depth else .Key) pvBuff pvOn (ai.withDepth n)
    | none => .stopErr (.ParseNumberError .Depth token) ai
  | .Seldepth =>
    match parseUnsigned U64_MAX token with
    | some n => .next (if pvOn then .Seldepth else .Key) pvBuff pvOn (ai.withSeldepth n)
    | none => .stopErr (.ParseNumberError .Seldepth token) ai
  | .Time =>
    match parseUnsigned U64_MAX token with
    | some n => .next (if pvOn then .Time else .Key) pvBuff pvOn (ai.withTime n)
    | none => .stopErr (.ParseNumberError .Time token) ai
  | .Nodes =>
    match parseUnsigned U64_MAX token with
    | some n => .next (if pvOn then .Nodes else .Key) pvBuff pvOn (ai.withNodes n)
    | none => .stopErr (.ParseNumberError .Nodes token) ai
  | .Multipv =>
    match parseUnsigned U64_MAX token with
    | some n => .next (if pvOn then .Multipv else .Key) pvBuff pvOn (ai.withMultipv n)
    | none => .stopErr (.ParseNumberError .Multipv token) ai
  | .WdlW =>
    match parseUnsigned U64_MAX token with
    | some n => .next .WdlD pvBuff pvOn (ai.withWdlWin n)
    | none => .stopErr (.ParseNumberError .WdlW token) ai
  | .WdlD =>
    match parseUnsigned U64_MAX token with
    | some n => .next .WdlL pvBuff pvOn (ai.withWdlDraw n)
    | none => .stopErr (.ParseNumberError .WdlD token) ai
  | .WdlL =>
    match parseUnsigned U64_MAX token with
    | some n => .next (if pvOn then .WdlL else .Key) pvBuff pvOn (ai.withWdlLoss n)
    | none => .stopErr (.ParseNumberError .WdlL token) ai
  | .ScoreCp =>
    if token = "upperbound".data then
      .next .ScoreCp pvBuff pvOn (ai.withScoretype .Upperbound)
    else if token = "lowerbound".data then
      .next .ScoreCp pvBuff pvOn (ai.withScoretype .Lowerbound)
    else
      match parseI32 token with
      | some n => .next (if pvOn then .ScoreCp else .Key) pvBuff pvOn (ai.withScore (.Cp n))
      | none => .stopErr (.ParseNumberError .ScoreCp token) ai
  | .ScoreMate =>
    if token = "upperbound".data then
      .next .ScoreMate pvBuff pvOn (ai.withScoretype .Upperbound)
    else if token = "lowerbound".data then
      .next .ScoreMate pvBuff pvOn (ai.withScoretype .Lowerbound)
    else
      match parseI32 token with
      | some n => .next (if pvOn then .ScoreMate else .Key) pvBuff pvOn (ai.withScore (.Mate n))
      | none => .stopErr (.ParseNumberError .ScoreMate token) ai
  | .Currmove =>
    .next (if pvOn then .Currmove else .Key) pvBuff pvOn
      (ai.withCurrmove token)
  | .Currmovenumber =>
    match parseUnsigned U64_MAX token with
    | some n => .next (if pvOn then .Currmovenumber else .Key) pvBuff pvOn (ai.withCurrmovenumber n)
    | none => .stopErr (.ParseNumberError .Currmovenumber token) ai
  | .Hashfull =>
    match parseUnsigned U64_MAX token with
    | some n => .next (if pvOn then .Hashfull else .Key) pvBuff pvOn (ai.withHashfull n)
    | none => .stopErr (.ParseNumberError .Hashfull token) ai
  | .Nps =>
    match parseUnsigned U64_MAX token with
    | some n => .next (if pvOn then .Nps else .Key) pvBuff pvOn (ai.withNps n)
    | none => .stopErr (.ParseNumberError .Nps token) ai
  | .Tbhits =>
    match parseUnsigned U64_MAX token with
    | some n => .next (if pvOn then .Tbhits else .Key) pvBuff pvOn (ai.withTbhits n)
    | none => .stopErr (.ParseNumberError .Tbhits token) ai
  | .Cpuload =>
    match parseUnsigned U64_MAX token with
    | some n => .next (if pvOn then .Cpuload else .Key) pvBuff pvOn (ai.withCpuload n)
    | none => .stopErr (.ParseNumberError .Cpuload token) ai
  | .PvBestmove =>
    .next .PvPonder (pvBuff ++ token) true
      (ai.withPvBestmove token)
  | .PvPonder =>
    .next .PvRest (pvBuff ++ ' ' :: token) pvOn
      (ai.withPonder token)
  | .PvRest =>
    .next .PvRest (pvBuff ++ ' ' :: token) pvOn ai

/-- The token loop of `AnalysisInfo::parse`. When every token has been
consumed the line-local pv accumulator is committed with
`self.pv.set_trim(pv_buff, ' ')`; the two early returns skip that commit.
The pair returned is the final record together with the optional error
(`none` models `Ok(())`). -/
def runTokens (allow : Bool) :
    List (List Char) → ParsingState → List Char → Bool → AnalysisInfo →
    AnalysisInfo × Option InfoParseError
  | [], _, pvBuff, _, ai =>
      (ai.withPvCommit pvBuff, none)
  | t :: rest, ps, pvBuff, pvOn, ai =>
      match parseStep allow ps pvBuff pvOn ai t with
      | .next ps1 pb1 po1 ai1 => runTokens allow rest ps1 pb1 po1 ai1
      | .stopOk ai1 => (ai1, none)
      | .stopErr e ai1 => (ai1, some e)

/-- `AnalysisInfo::parse(info)`: split the line on single spaces and run
the dispatch loop from the `Info` state. `allow` is the external
`ALLOW_UNKNOWN_INFO_KEY` toggle read through `env_true`. -/
def AnalysisInfo.parse (ai : AnalysisInfo) (allow : Bool) (info : String) :
    AnalysisInfo × Option InfoParseError :=
  runTokens allow (splitTokens info.data) .Info [] false ai

/-- `AnalysisInfoSerde`: the transport shape. Text fields are carried as
their UTF-8 byte content (`Option<String>` in Rust; `none` models null). -/
structure AnalysisInfoSerde where
  disposition : String
  done : Bool
  bestmove : Option (List Nat)
  ponder : Option (List Nat)
  pv : Option (List Nat)
  depth : Nat
  seldepth : Nat
  time : Nat
  nodes : Nat
  multipv : Nat
  score : Score
  wdl : WDL
  currmove : Option (List Nat)
  currmovenumber : Nat
  hashfull : Nat
  nps : Nat
  tbhits : Nat
  cpuload : Nat
  scoretype : ScoreType
deriving DecidableEq, Repr

/-- `AnalysisInfo::to_serde`. -/
def AnalysisInfo.to_serde (ai : AnalysisInfo) : AnalysisInfoSerde where
  disposition := "AnalysisInfo"
  done := ai.done
  bestmove := ai.bestmove.to_opt
  ponder := ai.ponder.to_opt
  pv := ai.pv.to_opt
  depth := ai.depth
  seldepth := ai.seldepth
  time := ai.time
  nodes := ai.nodes
  multipv := ai.multipv
  score := ai.score
  wdl := ai.wdl
  currmove := ai.currmove.to_opt
  currmovenumber := ai.currmovenumber
  hashfull := ai.hashfull
  nps := ai.nps
  tbhits := ai.tbhits
  cpuload := ai.cpuload
  scoretype := ai.scoretype

/-- `AnalysisInfo::from_serde`. -/
def AnalysisInfo.from_serde (ais : AnalysisInfoSerde) : AnalysisInfo where
  done := ais.done
  bestmove := Buff.of_opt UCI_MAX_LENGTH ais.bestmove
  ponder := Buff.of_opt UCI_MAX_LENGTH ais.ponder
  pv := Buff.of_opt PV_BUFF_SIZE ais.pv
  depth := ais.depth
  seldepth := ais.seldepth
  time := ais.time
  nodes := ais.nodes
  multipv := ais.multipv
  score := ais.score
  currmove := Buff.of_opt UCI_MAX_LENGTH ais.currmove
  currmovenumber := ais.currmovenumber
  hashfull := ais.hashfull
  nps := ais.nps
  tbhits := ais.tbhits
  cpuload := ais.cpuload
  scoretype := ais.scoretype
  wdl := ais.wdl

/-- Field-by-field equality of two records as observable through the
public interface: the four text cells are compared through `to_opt`
(their accessors decode exactly the stored `len`-byte content; bytes past
the length are stale storage invisible to any caller). -/
def obsEq (a b : AnalysisInfo) : Prop :=
  a.done = b.done ∧
  a.bestmove.to_opt = b.bestmove.to_opt ∧
  a.ponder.to_opt = b.ponder.to_opt ∧
  a.pv.to_opt = b.pv.to_opt ∧
  a.depth = b.depth ∧
  a.seldepth = b.seldepth ∧
  a.time = b.time ∧
  a.nodes = b.nodes ∧
  a.multipv = b.multipv ∧
  a.score = b.score ∧
  a.currmove.to_opt = b.currmove.to_opt ∧
  a.currmovenumber = b.currmovenumber ∧
  a.hashfull = b.hashfull ∧
  a.nps = b.nps ∧
  a.tbhits = b.tbhits ∧
  a.cpuload = b.cpuload ∧
  a.scoretype = b.scoretype ∧
  a.wdl = b.wdl

instance (a b : AnalysisInfo) : Decidable (obsEq a b) := by
  unfold obsEq; infer_instance

/-- `PosSpec`: position specifier of a go job. -/
inductive PosSpec where
  | Startpos
  | Fen
  | No
deriving DecidableEq, Repr

/-- `GoJob`: configuration consumed by `UciEngine::go`. The two Rust
`HashMap<String, String>` fields are modelled as association lists in
insertion order; `std::collections::HashMap` itself stores the same pairs
but yields them in an arbitrary, randomized iteration order, which is why
`goCommandList` below takes the iteration sequences as parameters. -/
structure GoJob where
  uci_options : List (String × String)
  pos_spec : PosSpec
  pos_fen : Option String
  pos_moves : Option String
  go_options : List (String × String)
deriving DecidableEq, Repr

/-- `HashMap::insert`: replace the value of an existing key, otherwise
add the pair. -/
def hmInsert (k v : String) (m : List (String × String)) : List (String × String) :=
  if m.any (fun kv => kv.1 = k) then
    m.map (fun kv => if kv.1 = k then (k, v) else kv)
  else m ++ [(k, v)]

/-- `GoJob::new()`. -/
def GoJob.new : GoJob :=
  ⟨[], .No, none, none, []⟩

/-- `GoJob::pos_fen(fen)`. -/
def GoJob.posFen (j : GoJob) (fen : String) : GoJob :=
  { j with pos_spec := .Fen, pos_fen := some fen }

/-- `GoJob::pos_startpos()`. -/
def GoJob.posStartpos (j : GoJob) : GoJob :=
  { j with pos_spec := .Startpos }

/-- `GoJob::uci_opt(key, value)`. -/
def GoJob.uciOpt (j : GoJob) (key value : String) : GoJob :=
  { j with uci_options := hmInsert key value j.uci_options }

/-- `GoJob::go_opt(key, value)`. -/
def GoJob.goOpt (j : GoJob) (key value : String) : GoJob :=
  { j with go_options := hmInsert key value j.go_options }

/-- `Timecontrol`. -/
structure Timecontrol where
  wtime : Nat
  winc : Nat
  btime : Nat
  binc : Nat
deriving DecidableEq, Repr

/-- `Timecontrol::default()`. -/
def Timecontrol.default : Timecontrol :=
  ⟨60000, 0, 60000, 0⟩

/-- `GoJob::tc(tc)`: insert the four time-control pairs. -/
def GoJob.tc (j : GoJob) (t : Timecontrol) : GoJob :=
  let m1 := hmInsert "wtime" (toString t.wtime) j.go_options
  let m2 := hmInsert "winc" (toString t.winc) m1
  let m3 := hmInsert "btime" (toString t.btime) m2
  let m4 := hmInsert "binc" (toString t.binc) m3
  { j with go_options := m4 }

/-- Go jobs reachable through the public builder API. -/
inductive Reachable : GoJob → Prop where
  | new : Reachable GoJob.new
  | posFen (j : GoJob) (fen : String) : Reachable j → Reachable (j.posFen fen)
  | posStartpos (j : GoJob) : Reachable j → Reachable j.posStartpos
  | uciOpt (j : GoJob) (k v : String) : Reachable j → Reachable (j.uciOpt k v)
  | goOpt (j : GoJob) (k v : String) : Reachable j → Reachable (j.goOpt k v)
  | tc (j : GoJob) (t : Timecontrol) : Reachable j → Reachable (j.tc t)

/-- The `pos_command_moves` string built in `UciEngine::go`. -/
def posCommandMoves (j : GoJob) : String :=
  match j.pos_moves with
  | some m => " moves " ++ m
  | none => ""

/-- The `pos_command` value built in `UciEngine::go`. The outer `Option`
models the `go_job.pos_fen.unwrap()` call: `none` is the panic taken when
the specifier is `Fen` but no fen text is present; otherwise the inner
`Option` is Rust's `pos_command` (`none` when no position was given). -/
def posCommand (j : GoJob) : Option (Option String) :=
  match j.pos_spec with
  | .Startpos => some (some ("position startpos" ++ posCommandMoves j))
  | .Fen =>
    match j.pos_fen with
    | some fen => some (some ("position fen " ++ fen ++ posCommandMoves j))
    | none => none
  | .No => some none

/-- One `setoption` line of `UciEngine::go`. -/
def setoptionCommand (kv : String × String) : String :=
  "setoption name " ++ kv.1 ++ " value " ++ kv.2

/-- The `go` command line: `"go"` plus `" <key> <value>"` per pair, in
the order the iteration yields them. -/
def goCommandString (goIter : List (String × String)) : String :=
  goIter.foldl (fun acc kv => acc ++ " " ++ kv.1 ++ " " ++ kv.2) "go"

/-- Every command line `UciEngine::go` writes for a job, given the
sequences in which the two `HashMap`s yield their pairs (the only
guarantee `std::collections::HashMap` gives is that each sequence is a
permutation of the stored pairs). `none` models the fen `unwrap` panic. -/
def goCommandList (j : GoJob) (uciIter goIter : List (String × String)) :
    Option (List String) :=
  match posCommand j with
  | none => none
  | some pc => some ((uciIter.map setoptionCommand) ++ pc.toList ++ [goCommandString goIter])

/-- `GoResult`: best move and ponder as token character lists. -/
structure GoResult where
  bestmove : Option (List Char)
  ponder : Option (List Char)
deriving DecidableEq, Repr

/-- The tail of `UciEngine::go`: receive on the bestmove channel
(`none` models `Err(RecvError)`, the reader having ended), split the line
on spaces, and pick tokens 1 and 3 when present. -/
def goRecvResult (recv : Option String) : GoResult :=
  match recv with
  | none => ⟨none, none⟩
  | some line =>
    let parts := splitTokens line.data
    ⟨if h : 1 < parts.length then some (parts.get ⟨1, h⟩) else none,
     if h : 3 < parts.length then some (parts.get ⟨3, h⟩) else none⟩

/-- Record with a pv previously stored well within capacity; used to
exercise the parser on lines that do not mention `pv`. -/
def ai0 : AnalysisInfo :=
  { AnalysisInfo.new with pv := (Buff.new PV_BUFF_SIZE).set PV_BUFF_SIZE "e2e4".data }

/-- Record whose four text cells were all set within capacity, with a few
scalar fields populated; used for the serialization round trip. -/
def ai1 : AnalysisInfo :=
  { AnalysisInfo.new with
      bestmove := (Buff.new UCI_MAX_LENGTH).set UCI_MAX_LENGTH "e2e4".data
      ponder := (Buff.new UCI_MAX_LENGTH).set UCI_MAX_LENGTH "e7e5".data
      pv := (Buff.new PV_BUFF_SIZE).set PV_BUFF_SIZE "e2e4 e7e5".data
      currmove := (Buff.new UCI_MAX_LENGTH).set UCI_MAX_LENGTH "g1f3".data
      depth := 11
      nodes := 3000000000
      score := .Mate 5
      scoretype := .Lowerbound
      wdl := ⟨10, 20, 30⟩ }

/-- A job with two engine options inserted in a known order. -/
def jobC1 : GoJob :=
  (GoJob.new.uciOpt "Hash" "128").uciOpt "Threads" "4"

/-- A legal chess starting fen used as a concrete builder input. -/
def fen0 : String :=
  "rnbqkbnr/pppppppp/8/8/8/8/PPPPPPPP/RNBQKBNR w KQkq - 0 1"

/-- Frame facts about one accepted dispatch step: fields whose governing
token is not the current one and whose value state is not the current
state are unchanged, and the new state is not that field's value state.
`done` and `pv` are never written by any step; the pv accumulator is
unchanged while the parser is outside the pv states. -/
def StepFrame (ps : ParsingState) (t pvBuff : List Char) (ps1 : ParsingState)
    (pb1 : List Char) (ai ai1 : AnalysisInfo) : Prop :=
  ai1.done = ai.done ∧
  ai1.pv = ai.pv ∧
  ((t ≠ "depth".data ∧ ps ≠ .Depth) → ai1.depth = ai.depth ∧ ps1 ≠ .Depth) ∧
  ((t ≠ "seldepth".data ∧ ps ≠ .Seldepth) → ai1.seldepth = ai.seldepth ∧ ps1 ≠ .Seldepth) ∧
  ((t ≠ "time".data ∧ ps ≠ .Time) → ai1.time = ai.time ∧ ps1 ≠ .Time) ∧
  ((t ≠ "nodes".data ∧ ps ≠ .Nodes) → ai1.nodes = ai.nodes ∧ ps1 ≠ .Nodes) ∧
  ((t ≠ "multipv".data ∧ ps ≠ .Multipv) → ai1.multipv = ai.multipv ∧ ps1 ≠ .Multipv) ∧
  ((t ≠ "currmove".data ∧ ps ≠ .Currmove) → ai1.currmove = ai.currmove ∧ ps1 ≠ .Currmove) ∧
  ((t ≠ "currmovenumber".data ∧ ps ≠ .Currmovenumber) →
     ai1.currmovenumber = ai.currmovenumber ∧ ps1 ≠ .Currmovenumber) ∧
  ((t ≠ "hashfull".data ∧ ps ≠ .Hashfull) → ai1.hashfull = ai.hashfull ∧ ps1 ≠ .Hashfull) ∧
  ((t ≠ "nps".data ∧ ps ≠ .Nps) → ai1.nps = ai.nps ∧ ps1 ≠ .Nps) ∧
  ((t ≠ "tbhits".data ∧ ps ≠ .Tbhits) → ai1.tbhits = ai.tbhits ∧ ps1 ≠ .Tbhits) ∧
  ((t ≠ "cpuload".data ∧ ps ≠ .Cpuload) → ai1.cpuload = ai.cpuload ∧ ps1 ≠ .Cpuload) ∧
  ((t ≠ "wdl".data ∧ ps ≠ .WdlW ∧ ps ≠ .WdlD ∧ ps ≠ .WdlL) →
     ai1.wdl = ai.wdl ∧ ps1 ≠ .WdlW ∧ ps1 ≠ .WdlD ∧ ps1 ≠ .WdlL) ∧
  ((t ≠ "score".data ∧ ps ≠ .Score ∧ ps ≠ .ScoreCp ∧ ps ≠ .ScoreMate) →
     ai1.score = ai.score ∧ ps1 ≠ .Score ∧ ps1 ≠ .ScoreCp ∧ ps1 ≠ .ScoreMate) ∧
  ((t ≠ "score".data ∧ t ≠ "lowerbound".data ∧ t ≠ "upperbound".data ∧
      ps ≠ .Score ∧ ps ≠ .ScoreCp ∧ ps ≠ .ScoreMate) →
     ai1.scoretype = ai.scoretype ∧ ps1 ≠ .Score ∧ ps1 ≠ .ScoreCp ∧ ps1 ≠ .ScoreMate) ∧
  ((t ≠ "pv".data ∧ ps ≠ .PvBestmove ∧ ps ≠ .PvPonder ∧ ps ≠ .PvRest) →
     ai1.bestmove = ai.bestmove ∧ ai1.ponder = ai.ponder ∧ pb1 = pvBuff ∧
     ps1 ≠ .PvBestmove ∧ ps1 ≠ .PvPonder ∧ ps1 ≠ .PvRest)

theorem str_append_empty (s : String) : s ++ "" = s := by
  cases s with
  | mk d =>
    show String.mk (d ++ []) = String.mk d
    rw [List.append_nil]

/-- Claim C3: the spec says that for input text whose byte length is at
most the capacity, `set_trim` keeps the whole text. The code instead
drops the trailing token of fitting text: `set_trim("e2e4", ' ')` into a
pv-sized cell (capacity 50, input 4 bytes) stores length 0, and the
fitting `"e2e4 e7e5 g1f3"` (14 bytes) loses its last move. -/
theorem set_trim_drops_fitting_text :
    ((Buff.new PV_BUFF_SIZE).set_trim PV_BUFF_SIZE "e2e4".data ' ').len = 0 ∧
    ((Buff.new PV_BUFF_SIZE).set_trim PV_BUFF_SIZE "e2e4".data ' ').to_opt = none ∧
    (listBytes "e2e4".data).length = 4 ∧ 4 ≤ PV_BUFF_SIZE ∧
    ((Buff.new PV_BUFF_SIZE).set_trim PV_BUFF_SIZE "e2e4 e7e5 g1f3".data ' ').to_opt =
      some (listBytes "e2e4 e7e5".data) := by
  decide

/-- Claim C4: at capacity 9 the documented trim instance does hold
(`"e2e4 e7e5 g1f3 b8c6"` is cut to the 9-byte `"e2e4 e7e5"`), but the
never-split-a-token half fails on multibyte input: at capacity 7 with
input `"abc ééx"` the scan stops after visiting the 4 trailing
characters, retaining `9 - 4 = 5` bytes, so the stored content
`[97, 98, 99, 32, 195]` cuts through both the token `"ééx"` and the
character `'é'` — it is none of the token-boundary prefixes of the
input. -/
theorem set_trim_boundary_instance_and_token_split :
    ((Buff.new 9).set_trim 9 "e2e4 e7e5 g1f3 b8c6".data ' ').len = 9 ∧
    ((Buff.new 9).set_trim 9 "e2e4 e7e5 g1f3 b8c6".data ' ').to_opt =
      some (listBytes "e2e4 e7e5".data) ∧
    ((Buff.new 7).set_trim 7 "abc ééx".data ' ').to_opt = some [97, 98, 99, 32, 195] ∧
    ((Buff.new 7).set_trim 7 "abc ééx".data ' ').to_opt ≠ some (listBytes "abc".data) ∧
    ((Buff.new 7).set_trim 7 "abc ééx".data ' ').to_opt ≠ some (listBytes "abc ".data) ∧
    ((Buff.new 7).set_trim 7 "abc ééx".data ' ').to_opt ≠ some (listBytes "abc ééx".data) := by
  decide

/-- Claim C5: `set_trim` decrements its byte counter once per character,
so on the 6-character, 12-byte input `"éééééé"` into a move-sized cell
(capacity 5) the retained length comes out as `12 - 6 = 6 > 5`: the
`length ≤ N` invariant is broken (in Rust the slice copy
`self.buff[0..6]` on the 5-byte array panics at this point). The other
operations keep the invariant on the same input. -/
theorem set_trim_multibyte_overflow :
    ((Buff.new UCI_MAX_LENGTH).set_trim UCI_MAX_LENGTH "éééééé".data ' ').len = 6 ∧
    ¬ ((Buff.new UCI_MAX_LENGTH).set_trim UCI_MAX_LENGTH "éééééé".data ' ').wf UCI_MAX_LENGTH ∧
    (listBytes "éééééé".data).length = 12 ∧
    ((Buff.new UCI_MAX_LENGTH).set UCI_MAX_LENGTH "éééééé".data).wf UCI_MAX_LENGTH ∧
    (Buff.of_chars UCI_MAX_LENGTH "éééééé".data).wf UCI_MAX_LENGTH ∧
    (Buff.new UCI_MAX_LENGTH).wf UCI_MAX_LENGTH ∧
    (((Buff.new UCI_MAX_LENGTH).set UCI_MAX_LENGTH "éééééé".data).reset).wf UCI_MAX_LENGTH := by
  decide

/-- Claim C2: a successful parse of `"info depth 3"` — a line that never
mentions `pv` — nevertheless clears a previously stored pv, because
`parse` unconditionally commits its (here empty) line-local pv
accumulator through `set_trim` at end of line. Every other field keeps
its prior value on this line, as the claim expects. -/
theorem parse_wipes_pv_on_pv_less_line :
    ai0.pv.to_opt = some (listBytes "e2e4".data) ∧
    (ai0.parse false "info depth 3").2 = none ∧
    (ai0.parse false "info depth 3").1.depth = 3 ∧
    (ai0.parse false "info depth 3").1.pv.to_opt = none ∧
    (ai0.parse false "info depth 3").1 =
      { ai0 with depth := 3, pv := ai0.pv.reset } := by
  decide

/-- Claim C7: in strict mode `parse("info zzz foo")` fails with an
invalid-key error carrying `"zzz"` and the record is untouched, exactly
as claimed. In tolerant mode the parse succeeds and skips the one
argument token, but the end-of-line pv commit still wipes a previously
stored pv, so "no field changed" only holds for records whose pv is
already empty (such as a fresh one). -/
theorem parse_unknown_key_strict_tolerant :
    ai0.parse false "info zzz foo" = (ai0, some (.InvalidKeyError "zzz".data)) ∧
    (ai0.parse true "info zzz foo").2 = none ∧
    (ai0.parse true "info zzz foo").1.pv.to_opt = none ∧
    ai0.pv.to_opt = some (listBytes "e2e4".data) ∧
    AnalysisInfo.new.parse true "info zzz foo" = (AnalysisInfo.new, none) := by
  decide

/-- Claim C1: the builders record the option pairs in insertion order,
but `UciEngine::go` iterates a `std::collections::HashMap`, whose only
guarantee is to yield some permutation of the stored pairs. Distinct
permutations produce distinct command sequences — both for the
`setoption` lines and for the single `go` line — so the emitted order is
not determined to be the insertion order. -/
theorem go_option_order_not_determined :
    jobC1.uci_options = [("Hash", "128"), ("Threads", "4")] ∧
    [("Threads", "4"), ("Hash", "128")].Perm jobC1.uci_options ∧
    goCommandList jobC1 [("Threads", "4"), ("Hash", "128")] [] ≠
      goCommandList jobC1 jobC1.uci_options [] ∧
    goCommandString [("wtime", "60000"), ("winc", "0")] ≠
      goCommandString [("winc", "0"), ("wtime", "60000")] := by
  decide

/-- Claim C6: on a delivered line, the space-split token at index 1 is
returned as the best move exactly when at least 2 tokens exist, and the
token at index 3 as the ponder move exactly when at least 4 exist; a
disconnected channel yields a successful result with both absent. -/
theorem go_bestmove_extraction (line : String) :
    (∀ h : 1 < (splitTokens line.data).length,
        (goRecvResult (some line)).bestmove = some ((splitTokens line.data).get ⟨1, h⟩)) ∧
    (¬ 1 < (splitTokens line.data).length → (goRecvResult (some line)).bestmove = none) ∧
    (∀ h : 3 < (splitTokens line.data).length,
        (goRecvResult (some line)).ponder = some ((splitTokens line.data).get ⟨3, h⟩)) ∧
    (¬ 3 < (splitTokens line.data).length → (goRecvResult (some line)).ponder = none) ∧
    goRecvResult none = ⟨none, none⟩ := by
  refine ⟨?_, ?_, ?_, ?_, rfl⟩ <;> intro h <;> simp [goRecvResult, h]

theorem go_bestmove_extraction_witness :
    1 < (splitTokens ("bestmove e2e4 ponder e7e5").data).length ∧
    3 < (splitTokens ("bestmove e2e4 ponder e7e5").data).length ∧
    (goRecvResult (some "bestmove e2e4 ponder e7e5")).bestmove = some "e2e4".data ∧
    (goRecvResult (some "bestmove e2e4 ponder e7e5")).ponder = some "e7e5".data := by
  refine ⟨by decide, by decide, ?_, ?_⟩
  · exact ((go_bestmove_extraction "bestmove e2e4 ponder e7e5").1 (by decide)).trans (by decide)
  · exact ((go_bestmove_extraction "bestmove e2e4 ponder e7e5").2.2.1 (by decide)).trans (by decide)

theorem buff_of_opt_to_opt (N : Nat) (b : Buff) (h1 : b.len ≤ N) (h2 : b.buff.length = N) :
    (Buff.of_opt N b.to_opt).to_opt = b.to_opt := by
  by_cases h0 : b.len = 0
  · simp [Buff.to_opt, Buff.of_opt, h0]
  · have hlen : (b.buff.take b.len).length = b.len := by
      rw [List.length_take]
      omega
    simp only [Buff.to_opt, Buff.of_opt, if_neg h0, Option.getD_some, hlen,
      Nat.min_eq_left h1, List.take_take, Nat.min_self]
    rw [List.take_append_eq_append_take, hlen, Nat.sub_self, List.take_zero,
      List.append_nil, List.take_take, Nat.min_self]

/-- Claim C8: encoding a record to the transport shape and decoding back
reproduces the record field by field, for records whose text cells are
within capacity. The text fields are compared through `to_opt`, the only
view of their content the type exposes (storage bytes beyond the stored
length are stale and unobservable). -/
theorem serde_round_trip (ai : AnalysisInfo)
    (h1 : ai.bestmove.wf UCI_MAX_LENGTH) (h2 : ai.ponder.wf UCI_MAX_LENGTH)
    (h3 : ai.pv.wf PV_BUFF_SIZE) (h4 : ai.currmove.wf UCI_MAX_LENGTH) :
    obsEq (AnalysisInfo.from_serde ai.to_serde) ai := by
  unfold obsEq AnalysisInfo.from_serde AnalysisInfo.to_serde
  refine ⟨rfl, ?_, ?_, ?_, rfl, rfl, rfl, rfl, rfl, rfl, ?_, rfl, rfl, rfl, rfl, rfl, rfl, rfl⟩
  · exact buff_of_opt_to_opt UCI_MAX_LENGTH ai.bestmove h1.1 h1.2
  · exact buff_of_opt_to_opt UCI_MAX_LENGTH ai.ponder h2.1 h2.2
  · exact buff_of_opt_to_opt PV_BUFF_SIZE ai.pv h3.1 h3.2
  · exact buff_of_opt_to_opt UCI_MAX_LENGTH ai.currmove h4.1 h4.2

theorem serde_round_trip_witness :
    ai1.bestmove.wf UCI_MAX_LENGTH ∧ ai1.ponder.wf UCI_MAX_LENGTH ∧
    ai1.pv.wf PV_BUFF_SIZE ∧ ai1.currmove.wf UCI_MAX_LENGTH ∧
    obsEq (AnalysisInfo.from_serde ai1.to_serde) ai1 :=
  ⟨by decide, by decide, by decide, by decide,
    serde_round_trip ai1 (by decide) (by decide) (by decide) (by decide)⟩

/-- Claim C9: every job built through the public API keeps `pos_fen`
populated whenever `pos_spec` is `Fen`, so the `pos_fen.unwrap()` in
`UciEngine::go` (the `none` result of `posCommand`) is unreachable. -/
theorem gojob_fen_invariant (j : GoJob) (h : Reachable j) :
    (j.pos_spec = .Fen → j.pos_fen.isSome) ∧ posCommand j ≠ none := by
  induction h with
  | new => exact ⟨fun hf => by simp [GoJob.new] at hf, by simp [GoJob.new, posCommand]⟩
  | posFen j fen hj ih =>
      exact ⟨fun _ => rfl, by simp [GoJob.posFen, posCommand]⟩
  | posStartpos j hj ih =>
      exact ⟨fun hf => by simp [GoJob.posStartpos] at hf, by simp [GoJob.posStartpos, posCommand]⟩
  | uciOpt j k v hj ih => exact ih
  | goOpt j k v hj ih => exact ih
  | tc j t hj ih => exact ih

theorem gojob_fen_invariant_witness :
    ((GoJob.new.posFen fen0).pos_spec = .Fen → (GoJob.new.posFen fen0).pos_fen.isSome) ∧
    posCommand (GoJob.new.posFen fen0) ≠ none :=
  gojob_fen_invariant (GoJob.new.posFen fen0) (Reachable.posFen GoJob.new fen0 Reachable.new)

/-- Claim C10: no public builder operation ever sets `pos_moves`, so
every reachable job has an absent move list and the rendered position
command carries no `" moves"` clause: it is exactly
`"position startpos"`, or `"position fen <fen>"`. -/
theorem gojob_no_moves (j : GoJob) (h : Reachable j) :
    j.pos_moves = none ∧
    (j.pos_spec = .Startpos → posCommand j = some (some "position startpos")) ∧
    (∀ fen, j.pos_fen = some fen → j.pos_spec = .Fen →
      posCommand j = some (some ("position fen " ++ fen))) := by
  have hm : j.pos_moves = none := by
    induction h with
    | new => rfl
    | posFen j fen hj ih => exact ih
    | posStartpos j hj ih => exact ih
    | uciOpt j k v hj ih => exact ih
    | goOpt j k v hj ih => exact ih
    | tc j t hj ih => exact ih
  have hmoves : posCommandMoves j = "" := by
    unfold posCommandMoves
    rw [hm]
  refine ⟨hm, ?_, ?_⟩
  · intro hs
    simp [posCommand, hs, hmoves, str_append_empty]
  · intro fen hf hs
    simp [posCommand, hs, hf, hmoves, str_append_empty]

theorem gojob_no_moves_witness :
    (GoJob.new.posStartpos).pos_moves = none ∧
    posCommand GoJob.new.posStartpos = some (some "position startpos") :=
  ⟨(gojob_no_moves GoJob.new.posStartpos (Reachable.posStartpos GoJob.new Reachable.new)).1,
   (gojob_no_moves GoJob.new.posStartpos (Reachable.posStartpos GoJob.new Reachable.new)).2.1 rfl⟩

theorem trimScan_le (N : Nat) (sep : Char) (rs : List Char) (t : Nat) :
    trimScan N sep rs t ≤ max (t - rs.length) N := by
  induction rs generalizing t with
  | nil => simp [trimScan]
  | cons c rest ih =>
      unfold trimScan
      split_ifs with h
      · have := ih (t - 1)
        simpa [Nat.sub_sub, Nat.add_comm] using this
      · rcases not_or.mp h with ⟨-, h2⟩
        exact le_trans (Nat.le_of_not_lt h2) (le_max_right _ _)

theorem trimScan_boundary (N : Nat) (sep : Char) (cs : List Char) :
    ∀ t, t ≤ cs.length →
      trimScan N sep ((cs.take t).reverse) t = 0 ∨
      cs.get? (trimScan N sep ((cs.take t).reverse) t) = some sep := by
  intro t
  induction t with
  | zero => intro _; left; simp [trimScan]
  | succ t ih =>
      intro ht
      have htlt : t < cs.length := by omega
      have hsplit : (cs.take (t + 1)).reverse = cs.get ⟨t, htlt⟩ :: (cs.take t).reverse := by
        rw [List.take_succ]
        simp [List.getElem?_eq_getElem htlt]
      rw [hsplit]
      unfold trimScan
      split_ifs with h
      · simpa using ih (by omega)
      · right
        rcases not_or.mp h with ⟨hc, -⟩
        have hcs : cs.get ⟨t, htlt⟩ = sep := not_not.mp hc
        have hred : t + 1 - 1 = t := rfl
        rw [hred, List.get?_eq_get htlt, hcs]

/-- For single-byte (ASCII) input — where the byte length equals the
character count — `set_trim` does behave as a boundary trim: the stored
length never exceeds the capacity, and the cut falls either at the start
(empty result) or immediately before an occurrence of the separator, so
no separator-delimited token is ever split. The violations exhibited in
the claim theorems above are therefore exactly the char/byte mismatch on
multibyte input (plus the fits-case fencepost). -/
theorem set_trim_ascii_boundary (N : Nat) (b : Buff) (cs : List Char) (sep : Char)
    (ha : (listBytes cs).length = cs.length) :
    (b.set_trim N cs sep).len ≤ N ∧
    ((b.set_trim N cs sep).len = 0 ∨ cs.get? ((b.set_trim N cs sep).len) = some sep) := by
  have hlen : (b.set_trim N cs sep).len = trimScan N sep cs.reverse cs.length := by
    simp [Buff.set_trim, ha]
  constructor
  · rw [hlen]
    have h := trimScan_le N sep cs.reverse cs.length
    simpa [List.length_reverse] using h
  · rw [hlen]
    have h := trimScan_boundary N sep cs cs.length le_rfl
    simpa [List.take_length] using h

theorem not_mem_cons_parts {A : Type} {a b : A} {l : List A} (h : a ∉ b :: l) :
    b ≠ a ∧ a ∉ l := by
  rw [List.mem_cons, not_or] at h
  exact ⟨fun he => h.1 he.symm, h.2⟩

theorem key_cases (allow : Bool) (pvBuff : List Char) (pvOn : Bool)
    (ai : AnalysisInfo) (t : List Char) :
    parseStep allow .Key pvBuff pvOn ai t = .stopOk ai
    ∨ (t = "lowerbound".data ∧
        parseStep allow .Key pvBuff pvOn ai t = .next .Key pvBuff pvOn (ai.withScoretype .Lowerbound))
    ∨ (t = "upperbound".data ∧
        parseStep allow .Key pvBuff pvOn ai t = .next .Key pvBuff pvOn (ai.withScoretype .Upperbound))
    ∨ (t = "depth".data ∧ parseStep allow .Key pvBuff pvOn ai t = .next .Depth pvBuff pvOn ai)
    ∨ (t = "seldepth".data ∧ parseStep allow .Key pvBuff pvOn ai t = .next .Seldepth pvBuff pvOn ai)
    ∨ (t = "time".data ∧ parseStep allow .Key pvBuff pvOn ai t = .next .Time pvBuff pvOn ai)
    ∨ (t = "nodes".data ∧ parseStep allow .Key pvBuff pvOn ai t = .next .Nodes pvBuff pvOn ai)
    ∨ (t = "multipv".data ∧ parseStep allow .Key pvBuff pvOn ai t = .next .Multipv pvBuff pvOn ai)
    ∨ (t = "score".data ∧
        parseStep allow .Key pvBuff pvOn ai t = .next .Score pvBuff pvOn (ai.withScoretype .Exact))
    ∨ (t = "wdl".data ∧ parseStep allow .Key pvBuff pvOn ai t = .next .WdlW pvBuff pvOn ai)
    ∨ (t = "currmove".data ∧ parseStep allow .Key pvBuff pvOn ai t = .next .Currmove pvBuff pvOn ai)
    ∨ (t = "currmovenumber".data ∧
        parseStep allow .Key pvBuff pvOn ai t = .next .Currmovenumber pvBuff pvOn ai)
    ∨ (t = "hashfull".data ∧ parseStep allow .Key pvBuff pvOn ai t = .next .Hashfull pvBuff pvOn ai)
    ∨ (t = "nps".data ∧ parseStep allow .Key pvBuff pvOn ai t = .next .Nps pvBuff pvOn ai)
    ∨ (t = "tbhits".data ∧ parseStep allow .Key pvBuff pvOn ai t = .next .Tbhits pvBuff pvOn ai)
    ∨ (t = "cpuload".data ∧ parseStep allow .Key pvBuff pvOn ai t = .next .Cpuload pvBuff pvOn ai)
    ∨ (t = "pv".data ∧ parseStep allow .Key pvBuff pvOn ai t = .next .PvBestmove pvBuff pvOn ai)
    ∨ parseStep allow .Key pvBuff pvOn ai t = .next .Unknown pvBuff pvOn ai
    ∨ parseStep allow .Key pvBuff pvOn ai t = .stopErr (.InvalidKeyError t) ai := by
  simp only [parseStep]
  by_cases h1 : t = "string".data ∨ t = "refutation".data ∨ t = "currline".data
  · rw [if_pos h1]; simp
  rw [if_neg h1]
  by_cases h2 : t = "lowerbound".data
  · rw [if_pos h2]; simp [h2]
  rw [if_neg h2]
  by_cases h3 : t = "upperbound".data
  · rw [if_pos h3]; simp [h3]
  rw [if_neg h3]
  by_cases h4 : t = "depth".data
  · rw [if_pos h4]; simp [h4]
  rw [if_neg h4]
  by_cases h5 : t = "seldepth".data
  · rw [if_pos h5]; simp [h5]
  rw [if_neg h5]
  by_cases h6 : t = "time".data
  · rw [if_pos h6]; simp [h6]
  rw [if_neg h6]
  by_cases h7 : t = "nodes".data
  · rw [if_pos h7]; simp [h7]
  rw [if_neg h7]
  by_cases h8 : t = "multipv".data
  · rw [if_pos h8]; simp [h8]
  rw [if_neg h8]
  by_cases h9 : t = "score".data
  · rw [if_pos h9]; simp [h9]
  rw [if_neg h9]
  by_cases h10 : t = "wdl".data
  · rw [if_pos h10]; simp [h10]
  rw [if_neg h10]
  by_cases h11 : t = "currmove".data
  · rw [if_pos h11]; simp [h11]
  rw [if_neg h11]
  by_cases h12 : t = "currmovenumber".data
  · rw [if_pos h12]; simp [h12]
  rw [if_neg h12]
  by_cases h13 : t = "hashfull".data
  · rw [if_pos h13]; simp [h13]
  rw [if_neg h13]
  by_cases h14 : t = "nps".data
  · rw [if_pos h14]; simp [h14]
  rw [if_neg h14]
  by_cases h15 : t = "tbhits".data
  · rw [if_pos h15]; simp [h15]
  rw [if_neg h15]
  by_cases h16 : t = "cpuload".data
  · rw [if_pos h16]; simp [h16]
  rw [if_neg h16]
  by_cases h17 : t = "pv".data
  · rw [if_pos h17]; simp [h17]
  rw [if_neg h17]
  by_cases h18 : allow = true
  · rw [if_pos h18]; simp
  · rw [if_neg h18]; simp


set_option maxHeartbeats 1000000 in
theorem parseStep_stopOk_frame
    {allow : Bool} {ps : ParsingState} {pvBuff : List Char} {pvOn : Bool}
    {ai : AnalysisInfo} {t : List Char} {ai1 : AnalysisInfo}
    (h : parseStep allow ps pvBuff pvOn ai t = .stopOk ai1) : ai1 = ai := by
  cases ps
  case Key =>
    rcases key_cases allow pvBuff pvOn ai t with
        h0 | ⟨ht, h0⟩ | ⟨ht, h0⟩ | ⟨ht, h0⟩ | ⟨ht, h0⟩ | ⟨ht, h0⟩ | ⟨ht, h0⟩ | ⟨ht, h0⟩ | ⟨ht, h0⟩ |
        ⟨ht, h0⟩ | ⟨ht, h0⟩ | ⟨ht, h0⟩ | ⟨ht, h0⟩ | ⟨ht, h0⟩ | ⟨ht, h0⟩ | ⟨ht, h0⟩ | ⟨ht, h0⟩ | h0 | h0 <;>
      rw [h0] at h <;>
      first | (injection h with h1; exact h1.symm) | injection h
  all_goals (
    simp only [parseStep] at h <;>
    (repeat' split at h) <;>
    first | (injection h with h1; exact h1.symm) | injection h)

set_option maxHeartbeats 1000000 in
theorem parseStep_stopErr_frame
    {allow : Bool} {ps : ParsingState} {pvBuff : List Char} {pvOn : Bool}
    {ai : AnalysisInfo} {t : List Char} {e : InfoParseError} {ai1 : AnalysisInfo}
    (h : parseStep allow ps pvBuff pvOn ai t = .stopErr e ai1) : ai1 = ai := by
  cases ps
  case Key =>
    rcases key_cases allow pvBuff pvOn ai t with
        h0 | ⟨ht, h0⟩ | ⟨ht, h0⟩ | ⟨ht, h0⟩ | ⟨ht, h0⟩ | ⟨ht, h0⟩ | ⟨ht, h0⟩ | ⟨ht, h0⟩ | ⟨ht, h0⟩ |
        ⟨ht, h0⟩ | ⟨ht, h0⟩ | ⟨ht, h0⟩ | ⟨ht, h0⟩ | ⟨ht, h0⟩ | ⟨ht, h0⟩ | ⟨ht, h0⟩ | ⟨ht, h0⟩ | h0 | h0 <;>
      rw [h0] at h <;>
      first | (injection h with h1 h2; exact h2.symm) | injection h
  all_goals (
    simp only [parseStep] at h <;>
    (repeat' split at h) <;>
    first | (injection h with h1 h2; exact h2.symm) | injection h)

set_option maxHeartbeats 4000000 in
theorem parseStep_next_frame
    {allow : Bool} {ps : ParsingState} {pvBuff : List Char} {pvOn : Bool}
    {ai : AnalysisInfo} {t : List Char} {ps1 : ParsingState} {pb1 : List Char}
    {po1 : Bool} {ai1 : AnalysisInfo}
    (h : parseStep allow ps pvBuff pvOn ai t = .next ps1 pb1 po1 ai1) :
    StepFrame ps t pvBuff ps1 pb1 ai ai1 := by
  cases pvOn
  all_goals cases ps
  case Key | Key =>
    rcases key_cases allow pvBuff _ ai t with
        h0 | ⟨ht, h0⟩ | ⟨ht, h0⟩ | ⟨ht, h0⟩ | ⟨ht, h0⟩ | ⟨ht, h0⟩ | ⟨ht, h0⟩ | ⟨ht, h0⟩ | ⟨ht, h0⟩ |
        ⟨ht, h0⟩ | ⟨ht, h0⟩ | ⟨ht, h0⟩ | ⟨ht, h0⟩ | ⟨ht, h0⟩ | ⟨ht, h0⟩ | ⟨ht, h0⟩ | ⟨ht, h0⟩ | h0 | h0 <;>
      rw [h0] at h <;>
      first
        | (injection h with e1 e2 e3 e4
           subst e1
           subst e2
           subst e3
           subst e4
           simp_all [StepFrame, AnalysisInfo.withScoretype])
        | injection h
  all_goals (
    simp only [parseStep] at h <;>
    (repeat' split at h) <;>
    first
      | (injection h with e1 e2 e3 e4
         subst e1
         subst e2
         subst e3
         subst e4
         simp_all [StepFrame, AnalysisInfo.withScoretype, AnalysisInfo.withDepth,
           AnalysisInfo.withSeldepth, AnalysisInfo.withTime, AnalysisInfo.withNodes,
           AnalysisInfo.withMultipv, AnalysisInfo.withWdlWin, AnalysisInfo.withWdlDraw,
           AnalysisInfo.withWdlLoss, AnalysisInfo.withScore, AnalysisInfo.withCurrmove,
           AnalysisInfo.withCurrmovenumber, AnalysisInfo.withHashfull, AnalysisInfo.withNps,
           AnalysisInfo.withTbhits, AnalysisInfo.withCpuload, AnalysisInfo.withPvBestmove,
           AnalysisInfo.withPonder])
      | injection h)


/-- Frame property of the whole token loop: a field whose governing
token never occurs among the remaining tokens, while the parser is not
currently inside that field's value state, keeps its value; `done` is
never written; and under the same condition for `pv` the record's pv
cell is either untouched (early return) or recommitted from the current
accumulator (normal end of line). -/
theorem runTokens_frame (allow : Bool) :
    ∀ (ts : List (List Char)) (ps : ParsingState) (pvBuff : List Char) (pvOn : Bool)
      (ai : AnalysisInfo),
      (runTokens allow ts ps pvBuff pvOn ai).1.done = ai.done ∧
      (("depth".data ∉ ts ∧ ps ≠ .Depth) → (runTokens allow ts ps pvBuff pvOn ai).1.depth = ai.depth) ∧
      (("seldepth".data ∉ ts ∧ ps ≠ .Seldepth) → (runTokens allow ts ps pvBuff pvOn ai).1.seldepth = ai.seldepth) ∧
      (("time".data ∉ ts ∧ ps ≠ .Time) → (runTokens allow ts ps pvBuff pvOn ai).1.time = ai.time) ∧
      (("nodes".data ∉ ts ∧ ps ≠ .Nodes) → (runTokens allow ts ps pvBuff pvOn ai).1.nodes = ai.nodes) ∧
      (("multipv".data ∉ ts ∧ ps ≠ .Multipv) → (runTokens allow ts ps pvBuff pvOn ai).1.multipv = ai.multipv) ∧
      (("currmove".data ∉ ts ∧ ps ≠ .Currmove) → (runTokens allow ts ps pvBuff pvOn ai).1.currmove = ai.currmove) ∧
      (("currmovenumber".data ∉ ts ∧ ps ≠ .Currmovenumber) → (runTokens allow ts ps pvBuff pvOn ai).1.currmovenumber = ai.currmovenumber) ∧
      (("hashfull".data ∉ ts ∧ ps ≠ .Hashfull) → (runTokens allow ts ps pvBuff pvOn ai).1.hashfull = ai.hashfull) ∧
      (("nps".data ∉ ts ∧ ps ≠ .Nps) → (runTokens allow ts ps pvBuff pvOn ai).1.nps = ai.nps) ∧
      (("tbhits".data ∉ ts ∧ ps ≠ .Tbhits) → (runTokens allow ts ps pvBuff pvOn ai).1.tbhits = ai.tbhits) ∧
      (("cpuload".data ∉ ts ∧ ps ≠ .Cpuload) → (runTokens allow ts ps pvBuff pvOn ai).1.cpuload = ai.cpuload) ∧
      (("wdl".data ∉ ts ∧ ps ≠ .WdlW ∧ ps ≠ .WdlD ∧ ps ≠ .WdlL) → (runTokens allow ts ps pvBuff pvOn ai).1.wdl = ai.wdl) ∧
      (("score".data ∉ ts ∧ ps ≠ .Score ∧ ps ≠ .ScoreCp ∧ ps ≠ .ScoreMate) → (runTokens allow ts ps pvBuff pvOn ai).1.score = ai.score) ∧
      (("score".data ∉ ts ∧ "lowerbound".data ∉ ts ∧ "upperbound".data ∉ ts ∧
          ps ≠ .Score ∧ ps ≠ .ScoreCp ∧ ps ≠ .ScoreMate) → (runTokens allow ts ps pvBuff pvOn ai).1.scoretype = ai.scoretype) ∧
      (("pv".data ∉ ts ∧ ps ≠ .PvBestmove ∧ ps ≠ .PvPonder ∧ ps ≠ .PvRest) →
        (runTokens allow ts ps pvBuff pvOn ai).1.bestmove = ai.bestmove ∧ (runTokens allow ts ps pvBuff pvOn ai).1.ponder = ai.ponder ∧
        ((runTokens allow ts ps pvBuff pvOn ai).1.pv = ai.pv ∨ (runTokens allow ts ps pvBuff pvOn ai).1.pv = ai.pv.set_trim PV_BUFF_SIZE pvBuff ' ')) := by
  intro ts
  induction ts with
  | nil =>
      intro ps pvBuff pvOn ai
      exact ⟨rfl, fun _ => rfl, fun _ => rfl, fun _ => rfl, fun _ => rfl, fun _ => rfl, fun _ => rfl, fun _ => rfl, fun _ => rfl, fun _ => rfl, fun _ => rfl, fun _ => rfl, fun _ => rfl, fun _ => rfl, fun _ => rfl, fun _ => ⟨rfl, rfl, Or.inr rfl⟩⟩
  | cons t rest ih =>
      intro ps pvBuff pvOn ai
      cases hstep : parseStep allow ps pvBuff pvOn ai t with
      | stopOk ai1 =>
          have he : ai1 = ai := parseStep_stopOk_frame hstep
          subst he
          simp [runTokens, hstep]
      | stopErr e ai1 =>
          have he : ai1 = ai := parseStep_stopErr_frame hstep
          subst he
          simp [runTokens, hstep]
      | next ps1 pb1 po1 ai1 =>
          have sf := parseStep_next_frame hstep
          unfold StepFrame at sf
          obtain ⟨sfDone, sfPv, sf1, sf2, sf3, sf4, sf5, sf6, sf7, sf8, sf9, sf10, sf11, sfWdl, sfScore, sfSt, sfPvG⟩ := sf
          obtain ⟨ihDone, ih1, ih2, ih3, ih4, ih5, ih6, ih7, ih8, ih9, ih10, ih11, ihWdl, ihScore, ihSt, ihPvG⟩ := ih ps1 pb1 po1 ai1
          simp only [runTokens, hstep]
          refine ⟨ihDone.trans sfDone, ?_, ?_, ?_, ?_, ?_, ?_, ?_, ?_, ?_, ?_, ?_, ?_, ?_, ?_, ?_⟩
          · rintro ⟨hmem, hps⟩
            obtain ⟨hne, hrest⟩ := not_mem_cons_parts hmem
            obtain ⟨e1, e2⟩ := sf1 ⟨hne, hps⟩
            exact (ih1 ⟨hrest, e2⟩).trans e1
          · rintro ⟨hmem, hps⟩
            obtain ⟨hne, hrest⟩ := not_mem_cons_parts hmem
            obtain ⟨e1, e2⟩ := sf2 ⟨hne, hps⟩
            exact (ih2 ⟨hrest, e2⟩).trans e1
          · rintro ⟨hmem, hps⟩
            obtain ⟨hne, hrest⟩ := not_mem_cons_parts hmem
            obtain ⟨e1, e2⟩ := sf3 ⟨hne, hps⟩
            exact (ih3 ⟨hrest, e2⟩).trans e1
          · rintro ⟨hmem, hps⟩
            obtain ⟨hne, hrest⟩ := not_mem_cons_parts hmem
            obtain ⟨e1, e2⟩ := sf4 ⟨hne, hps⟩
            exact (ih4 ⟨hrest, e2⟩).trans e1
          · rintro ⟨hmem, hps⟩
            obtain ⟨hne, hrest⟩ := not_mem_cons_parts hmem
            obtain ⟨e1, e2⟩ := sf5 ⟨hne, hps⟩
            exact (ih5 ⟨hrest, e2⟩).trans e1
          · rintro ⟨hmem, hps⟩
            obtain ⟨hne, hrest⟩ := not_mem_cons_parts hmem
            obtain ⟨e1, e2⟩ := sf6 ⟨hne, hps⟩
            exact (ih6 ⟨hrest, e2⟩).trans e1
          · rintro ⟨hmem, hps⟩
            obtain ⟨hne, hrest⟩ := not_mem_cons_parts hmem
            obtain ⟨e1, e2⟩ := sf7 ⟨hne, hps⟩
            exact (ih7 ⟨hrest, e2⟩).trans e1
          · rintro ⟨hmem, hps⟩
            obtain ⟨hne, hrest⟩ := not_mem_cons_parts hmem
            obtain ⟨e1, e2⟩ := sf8 ⟨hne, hps⟩
            exact (ih8 ⟨hrest, e2⟩).trans e1
          · rintro ⟨hmem, hps⟩
            obtain ⟨hne, hrest⟩ := not_mem_cons_parts hmem
            obtain ⟨e1, e2⟩ := sf9 ⟨hne, hps⟩
            exact (ih9 ⟨hrest, e2⟩).trans e1
          · rintro ⟨hmem, hps⟩
            obtain ⟨hne, hrest⟩ := not_mem_cons_parts hmem
            obtain ⟨e1, e2⟩ := sf10 ⟨hne, hps⟩
            exact (ih10 ⟨hrest, e2⟩).trans e1
          · rintro ⟨hmem, hps⟩
            obtain ⟨hne, hrest⟩ := not_mem_cons_parts hmem
            obtain ⟨e1, e2⟩ := sf11 ⟨hne, hps⟩
            exact (ih11 ⟨hrest, e2⟩).trans e1
          · rintro ⟨hmem, hp1, hp2, hp3⟩
            obtain ⟨hne, hrest⟩ := not_mem_cons_parts hmem
            obtain ⟨e1, f1, f2, f3⟩ := sfWdl ⟨hne, hp1, hp2, hp3⟩
            exact (ihWdl ⟨hrest, f1, f2, f3⟩).trans e1
          · rintro ⟨hmem, hp1, hp2, hp3⟩
            obtain ⟨hne, hrest⟩ := not_mem_cons_parts hmem
            obtain ⟨e1, f1, f2, f3⟩ := sfScore ⟨hne, hp1, hp2, hp3⟩
            exact (ihScore ⟨hrest, f1, f2, f3⟩).trans e1
          · rintro ⟨hm1, hm2, hm3, hp1, hp2, hp3⟩
            obtain ⟨hne1, hr1⟩ := not_mem_cons_parts hm1
            obtain ⟨hne2, hr2⟩ := not_mem_cons_parts hm2
            obtain ⟨hne3, hr3⟩ := not_mem_cons_parts hm3
            obtain ⟨e1, f1, f2, f3⟩ := sfSt ⟨hne1, hne2, hne3, hp1, hp2, hp3⟩
            exact (ihSt ⟨hr1, hr2, hr3, f1, f2, f3⟩).trans e1
          · rintro ⟨hmem, hp1, hp2, hp3⟩
            obtain ⟨hne, hrest⟩ := not_mem_cons_parts hmem
            obtain ⟨eb, ep, epb, f1, f2, f3⟩ := sfPvG ⟨hne, hp1, hp2, hp3⟩
            obtain ⟨ib, ip, ipv⟩ := ihPvG ⟨hrest, f1, f2, f3⟩
            refine ⟨ib.trans eb, ip.trans ep, ?_⟩
            rcases ipv with hl | hr
            · exact Or.inl (hl.trans sfPv)
            · right
              rw [hr, sfPv, epb]


/-- Partial-update law of `parse`, as it actually holds on the code: on
any line (and any record) every field other than `pv` is retained
whenever its governing token does not occur in the line; `pv` is either
untouched (non-info lines, unsupported-extension lines) or reset to the
empty commit of the line-local accumulator (fully consumed lines) — the
one departure from the specification's frame rule, exhibited concretely
by the claim theorems above. -/
theorem parse_partial_update (ai : AnalysisInfo) (allow : Bool) (info : String) :
    (ai.parse allow info).1.done = ai.done ∧
    ("depth".data ∉ splitTokens info.data → (ai.parse allow info).1.depth = ai.depth) ∧
    ("seldepth".data ∉ splitTokens info.data → (ai.parse allow info).1.seldepth = ai.seldepth) ∧
    ("time".data ∉ splitTokens info.data → (ai.parse allow info).1.time = ai.time) ∧
    ("nodes".data ∉ splitTokens info.data → (ai.parse allow info).1.nodes = ai.nodes) ∧
    ("multipv".data ∉ splitTokens info.data → (ai.parse allow info).1.multipv = ai.multipv) ∧
    ("currmove".data ∉ splitTokens info.data → (ai.parse allow info).1.currmove = ai.currmove) ∧
    ("currmovenumber".data ∉ splitTokens info.data → (ai.parse allow info).1.currmovenumber = ai.currmovenumber) ∧
    ("hashfull".data ∉ splitTokens info.data → (ai.parse allow info).1.hashfull = ai.hashfull) ∧
    ("nps".data ∉ splitTokens info.data → (ai.parse allow info).1.nps = ai.nps) ∧
    ("tbhits".data ∉ splitTokens info.data → (ai.parse allow info).1.tbhits = ai.tbhits) ∧
    ("cpuload".data ∉ splitTokens info.data → (ai.parse allow info).1.cpuload = ai.cpuload) ∧
    ("wdl".data ∉ splitTokens info.data → (ai.parse allow info).1.wdl = ai.wdl) ∧
    ("score".data ∉ splitTokens info.data → (ai.parse allow info).1.score = ai.score) ∧
    (("score".data ∉ splitTokens info.data ∧ "lowerbound".data ∉ splitTokens info.data ∧
        "upperbound".data ∉ splitTokens info.data) → (ai.parse allow info).1.scoretype = ai.scoretype) ∧
    ("pv".data ∉ splitTokens info.data →
      (ai.parse allow info).1.bestmove = ai.bestmove ∧ (ai.parse allow info).1.ponder = ai.ponder ∧
      ((ai.parse allow info).1.pv = ai.pv ∨ (ai.parse allow info).1.pv = ai.pv.reset)) := by
  obtain ⟨hDone, h1, h2, h3, h4, h5, h6, h7, h8, h9, h10, h11, hWdl, hScore, hSt, hPvG⟩ :=
    runTokens_frame allow (splitTokens info.data) .Info [] false ai
  refine ⟨hDone, ?_, ?_, ?_, ?_, ?_, ?_, ?_, ?_, ?_, ?_, ?_, ?_, ?_, ?_, ?_⟩
  · intro hm
    exact h1 ⟨hm, by decide⟩
  · intro hm
    exact h2 ⟨hm, by decide⟩
  · intro hm
    exact h3 ⟨hm, by decide⟩
  · intro hm
    exact h4 ⟨hm, by decide⟩
  · intro hm
    exact h5 ⟨hm, by decide⟩
  · intro hm
    exact h6 ⟨hm, by decide⟩
  · intro hm
    exact h7 ⟨hm, by decide⟩
  · intro hm
    exact h8 ⟨hm, by decide⟩
  · intro hm
    exact h9 ⟨hm, by decide⟩
  · intro hm
    exact h10 ⟨hm, by decide⟩
  · intro hm
    exact h11 ⟨hm, by decide⟩
  · intro hm
    exact hWdl ⟨hm, by decide, by decide, by decide⟩
  · intro hm
    exact hScore ⟨hm, by decide, by decide, by decide⟩
  · rintro ⟨hm1, hm2, hm3⟩
    exact hSt ⟨hm1, hm2, hm3, by decide, by decide, by decide⟩
  · intro hm
    obtain ⟨hb, hp, hpv⟩ := hPvG ⟨hm, by decide, by decide, by decide⟩
    refine ⟨hb, hp, ?_⟩
    rcases hpv with h | h
    · exact Or.inl h
    · exact Or.inr h
